import Mathlib

/-!
Shallow embedding of the shipment-checklist application (src/app.py).

Database rows follow the sqlite schema of `ensure_schema`; the route
handlers `open_public` (GET and POST), `unconfirm_item_route`, `add_item`,
`new_shipment`, `upload_item_image` and `remove_item_image` are modelled as
pure functions from a database value, a session value and the request data
to a result carrying the new database, the new session, the flash messages
and the HTTP response.  The server clock `now_iso()` is passed in as an
explicit `now : String` argument; sqlite AUTOINCREMENT ids are modelled as
"one more than the largest id present".
-/

namespace Biocamp

/-- A row of the `ships` table. -/
structure Ship where
  id : Nat
  title : String
  number : Option String := none
  status : Option String := none
  sent_at : Option String := none
  received_at : Option String := none
  viewed_at : Option String := none
  description : Option String := none
  token : String
  responsible_email : Option String := none
deriving Repr, DecidableEq

/-- A row of the `items` table. -/
structure Item where
  id : Nat
  ship_id : Nat
  label : String
  external_url : Option String := none
  confirmed_at : Option String := none
  confirmed_by : Option String := none
  viewed_at : Option String := none
  viewed_by : Option String := none
  image_path : Option String := none
deriving Repr, DecidableEq

/-- A row of the `events` table. -/
structure Event where
  id : Nat
  ship_id : Nat
  ts : String
  actor : Option String := none
  etype : Option String := none
  ip : Option String := none
  user_agent : Option String := none
deriving Repr, DecidableEq

/-- The whole sqlite database. -/
structure DB where
  ships : List Ship := []
  items : List Item := []
  events : List Event := []
deriving Repr, DecidableEq

/-- The Flask session of one viewer: identity (set by `login_post`) and the
per-shipment `viewed_flag_ship_<id>` keys, modelled as the list of ship ids
whose flag is `True`. -/
structure Session where
  viewer_name : Option String := none
  viewer_email : Option String := none
  viewed_flags : List Nat := []
deriving Repr, DecidableEq

/-- Python truthiness of an optional string: `None` and `""` are falsy. -/
def truthy : Option String → Bool
  | none => false
  | some s => s ≠ ""

/-- Python `str.strip()`: remove leading and trailing whitespace (modelled
on the character list so it is kernel-computable). -/
def pystrip (s : String) : String :=
  ⟨((s.data.dropWhile Char.isWhitespace).reverse.dropWhile Char.isWhitespace).reverse⟩

/-- Python `str.lower()` on the ASCII range. -/
def pylower (s : String) : String := ⟨s.data.map Char.toLower⟩

/-- Python `str.isdigit()` on ASCII input: non-empty and all digits. -/
def pyisdigit (s : String) : Bool := s.data ≠ [] && s.data.all Char.isDigit

/-- Python `int(x)` on an all-digit string. -/
def pyint (s : String) : Nat :=
  s.data.foldl (fun n c => n * 10 + (c.toNat - '0'.toNat)) 0

/-- Rendering of an optional string inside an f-string (`None` prints as
"None"). -/
def optStr : Option String → String
  | none => "None"
  | some s => s

/-- sqlite AUTOINCREMENT: next id is one past the largest id ever used; on
a fresh table ids start at 1.  (Modelled as max of present ids plus one.) -/
def nextId (ids : List Nat) : Nat := ids.foldr max 0 + 1

def nextShipId (db : DB) : Nat := nextId (db.ships.map Ship.id)
def nextItemId (db : DB) : Nat := nextId (db.items.map Item.id)
def nextEventId (db : DB) : Nat := nextId (db.events.map Event.id)

/-- Source `current_user()`: the session's viewer e-mail. -/
def current_user (sess : Session) : Option String := sess.viewer_email

/-- Source `current_actor()`. -/
def current_actor (sess : Session) : String :=
  if truthy sess.viewer_email ∧ truthy sess.viewer_name then
    sess.viewer_name.getD "" ++ " <" ++ sess.viewer_email.getD "" ++ ">"
  else if truthy sess.viewer_email then
    sess.viewer_email.getD ""
  else
    "Convidado"

/-- Source `current_actor() or "Convidado"` as used in `open_public`. -/
def actor_or_guest (sess : Session) : String :=
  if current_actor sess = "" then "Convidado" else current_actor sess

/-- Source `can_edit = (not ship.responsible_email) or (current_user() == ship.responsible_email)`. -/
def can_edit (responsible viewer : Option String) : Bool :=
  !(truthy responsible) || (viewer == responsible)

/-- Source `get_ship_by_token`. -/
def get_ship_by_token (db : DB) (token : String) : Option Ship :=
  db.ships.find? (fun s => s.token == token)

/-- Source `get_ship_by_id`. -/
def get_ship_by_id (db : DB) (ship_id : Nat) : Option Ship :=
  db.ships.find? (fun s => s.id == ship_id)

/-- Source `list_items_for_ship` (items are stored in id order, which is creation
order). -/
def list_items_for_ship (db : DB) (ship_id : Nat) : List Item :=
  db.items.filter (fun it => it.ship_id == ship_id)

/-- Source `confirm_all_items`: UPDATE items SET confirmed_at=now, confirmed_by=who
WHERE ship_id=? AND confirmed_at IS NULL. -/
def confirm_all_items (db : DB) (ship_id : Nat) (who now : String) : DB :=
  { db with items := db.items.map (fun it =>
      if it.ship_id = ship_id ∧ it.confirmed_at = none then
        { it with confirmed_at := some now, confirmed_by := some who }
      else it) }

/-- Source `confirm_selected_items`: UPDATE ... WHERE ship_id=? AND id IN (...) AND
confirmed_at IS NULL; empty id list is an early return. -/
def confirm_selected_items (db : DB) (ship_id : Nat) (item_ids : List Nat)
    (who now : String) : DB :=
  if item_ids.isEmpty then db
  else
    { db with items := db.items.map (fun it =>
        if it.ship_id = ship_id ∧ it.id ∈ item_ids ∧ it.confirmed_at = none then
          { it with confirmed_at := some now, confirmed_by := some who }
        else it) }

/-- Source `mark_items_viewed`: UPDATE items SET viewed_at=now, viewed_by=who
WHERE ship_id=? AND id IN (...).  Note: the source has no
`viewed_at IS NULL` condition here. -/
def mark_items_viewed (db : DB) (ship_id : Nat) (item_ids : List Nat)
    (who now : String) : DB :=
  if item_ids.isEmpty then db
  else
    { db with items := db.items.map (fun it =>
        if it.ship_id = ship_id ∧ it.id ∈ item_ids then
          { it with viewed_at := some now, viewed_by := some who }
        else it) }

/-- Source `set_ship_viewed_if_first_time`: UPDATE ships SET
viewed_at = COALESCE(viewed_at, now) WHERE id=?. -/
def set_ship_viewed_if_first_time (db : DB) (ship_id : Nat) (now : String) : DB :=
  { db with ships := db.ships.map (fun s =>
      if s.id = ship_id then { s with viewed_at := some (s.viewed_at.getD now) }
      else s) }

/-- Source `set_ship_received_if_done`: count the shipment's unconfirmed items; if
zero, UPDATE ships SET received_at = COALESCE(received_at, now) WHERE id=?. -/
def set_ship_received_if_done (db : DB) (ship_id : Nat) (now : String) : DB :=
  let remaining :=
    (db.items.filter (fun it => it.ship_id == ship_id && it.confirmed_at == none)).length
  if remaining = 0 then
    { db with ships := db.ships.map (fun s =>
        if s.id = ship_id then { s with received_at := some (s.received_at.getD now) }
        else s) }
  else db

/-- Source `add_event`: INSERT INTO events. -/
def add_event (db : DB) (ship_id : Nat) (actor etype : String)
    (ip ua : Option String) (now : String) : DB :=
  { db with events := db.events ++
      [{ id := nextEventId db, ship_id := ship_id, ts := now,
         actor := some actor, etype := some etype, ip := ip, user_agent := ua }] }

/-- Source `list_events_for_ship` returns the shipment's events (the source orders
them by timestamp descending for display). -/
def list_events_for_ship (db : DB) (ship_id : Nat) : List Event :=
  db.events.filter (fun e => e.ship_id == ship_id)

/-- Source `[int(x) for x in request.form.getlist("items") if x.isdigit()]`. -/
def parse_selected_ids (tokens : List String) : List Nat :=
  (tokens.filter (fun x => pyisdigit x)).map pyint

/-- The form data of a POST to `/open/<token>`. -/
structure Form where
  confirm_all : Option String := none
  items : List String := []
deriving Repr, DecidableEq

/-- The HTTP response of a handler (redirect targets and rendered pages). -/
inductive Resp where
  | notFound404
  | redirectLogin (next : String)
  | redirectOpen (token : String)
  | renderOpen (token : String)
  | redirectDetail (ship_id : Nat)
deriving Repr, DecidableEq

/-- Result of a handler that can touch the session. -/
structure HResult where
  db : DB
  sess : Session
  flashes : List (String × String)
  resp : Resp
deriving Repr, DecidableEq

/-- Result of a handler that leaves the session alone. -/
structure PageResult where
  db : DB
  flashes : List (String × String)
  resp : Resp
deriving Repr, DecidableEq

/-- POST branch of `open_public`. -/
def open_public_post (db : DB) (sess : Session) (token : String) (form : Form)
    (now : String) (ip ua : Option String) : HResult :=
  match get_ship_by_token db token with
  | none => ⟨db, sess, [], Resp.notFound404⟩
  | some ship =>
    if truthy ship.responsible_email ∧ ¬ truthy (current_user sess) then
      ⟨db, sess, [], Resp.redirectLogin token⟩
    else
      let actor := actor_or_guest sess
      if can_edit ship.responsible_email (current_user sess) then
        if form.confirm_all = some "1" then
          let db1 := confirm_all_items db ship.id actor now
          let db2 := add_event db1 ship.id actor "CONFIRM_ALL" ip ua now
          let db3 := set_ship_received_if_done db2 ship.id now
          ⟨db3, sess, [("Todos os itens foram confirmados.", "success")],
            Resp.redirectOpen token⟩
        else
          let ids := parse_selected_ids form.items
          if ids ≠ [] then
            let db1 := confirm_selected_items db ship.id ids actor now
            let db2 := add_event db1 ship.id actor "CONFIRM_SELECTED" ip ua now
            let db3 := set_ship_received_if_done db2 ship.id now
            ⟨db3, sess, [("Itens selecionados confirmados.", "success")],
              Resp.redirectOpen token⟩
          else
            ⟨db, sess, [("Nenhum item selecionado.", "error")],
              Resp.redirectOpen token⟩
      else
        ⟨db, sess,
          [("Apenas o responsável (" ++ optStr ship.responsible_email ++
            ") pode confirmar.", "error")],
          Resp.redirectOpen token⟩

/-- GET branch of `open_public`: first-view auto-mark gated by the session
flag, then an unconditional VIEW_OPEN event. -/
def open_public_get (db : DB) (sess : Session) (token : String)
    (now : String) (ip ua : Option String) : HResult :=
  match get_ship_by_token db token with
  | none => ⟨db, sess, [], Resp.notFound404⟩
  | some ship =>
    if truthy ship.responsible_email ∧ ¬ truthy (current_user sess) then
      ⟨db, sess, [], Resp.redirectLogin token⟩
    else
      let actor := actor_or_guest sess
      let st :=
        if ship.id ∈ sess.viewed_flags then (db, sess)
        else
          let items_once := list_items_for_ship db ship.id
          let not_viewed_ids :=
            (items_once.filter (fun it => !(truthy it.viewed_at))).map Item.id
          let dbA :=
            if not_viewed_ids ≠ [] then
              set_ship_viewed_if_first_time
                (add_event (mark_items_viewed db ship.id not_viewed_ids actor now)
                  ship.id actor "AUTO_VIEWED_ITEMS" ip ua now)
                ship.id now
            else db
          (dbA, { sess with viewed_flags := ship.id :: sess.viewed_flags })
      let db2 := add_event st.1 ship.id actor "VIEW_OPEN" ip ua now
      ⟨db2, st.2, [], Resp.renderOpen token⟩

/-- Source `unconfirm_item_route`: rejection flash, sets the viewed flag, no other
effect. -/
def unconfirm_item_route (db : DB) (sess : Session) (token : String)
    (_item_id : Nat) : HResult :=
  match get_ship_by_token db token with
  | none => ⟨db, sess, [], Resp.notFound404⟩
  | some ship =>
    ⟨db, { sess with viewed_flags := ship.id :: sess.viewed_flags },
      [("Desconfirmar não é permitido neste checklist.", "error")],
      Resp.redirectOpen token⟩

/-- Source `add_item` route: trims the label, rejects empty, otherwise inserts one
item row (no shipment-existence check, no event). -/
def add_item (db : DB) (ship_id : Nat) (form_label : Option String) : PageResult :=
  let label := pystrip (form_label.getD "")
  if label = "" then
    ⟨db, [("O item não pode estar vazio.", "error")], Resp.redirectDetail ship_id⟩
  else
    ⟨{ db with items := db.items ++
        [{ id := nextItemId db, ship_id := ship_id, label := label }] },
      [("Item adicionado com sucesso.", "success")],
      Resp.redirectDetail ship_id⟩

/-- The form data of a POST to `/new`. -/
structure NewForm where
  title : Option String := none
  number : Option String := none
  responsible_email : Option String := none
  items : List String := []
deriving Repr, DecidableEq

/-- The item-insertion loop of `new_shipment`: for each label, if it is
non-empty after stripping, insert it stripped. -/
def insert_items (db : DB) (ship_id : Nat) : List String → DB
  | [] => db
  | label :: rest =>
    insert_items
      (if pystrip label ≠ "" then
        { db with items := db.items ++
            [{ id := nextItemId db, ship_id := ship_id, label := pystrip label }] }
      else db)
      ship_id rest

/-- The ship row inserted by `new_shipment`: title/number/responsible come
from the form, stripped (the responsible e-mail also lowercased, empty
becoming NULL), status is the creation label "ENVIADO", `sent_at` is the
current time, and `received_at`/`viewed_at` start NULL. -/
def new_ship_row (db : DB) (form : NewForm) (token now : String) : Ship :=
  let title := if pystrip (form.title.getD "") = "" then "Checklist"
               else pystrip (form.title.getD "")
  let number := if pystrip (form.number.getD "") = "" then none
                else some (pystrip (form.number.getD ""))
  let responsible := if pylower (pystrip (form.responsible_email.getD "")) = "" then none
                     else some (pylower (pystrip (form.responsible_email.getD "")))
  { id := nextShipId db, title := title, number := number, status := some "ENVIADO",
    sent_at := some now, token := token, responsible_email := responsible }

/-- Source `new_shipment` POST: insert the ship row (status "ENVIADO", sent_at now,
fresh token), then the initial items. -/
def new_shipment (db : DB) (form : NewForm) (token now : String) : PageResult :=
  let ship_id := nextShipId db
  let db1 := { db with ships := db.ships ++ [new_ship_row db form token now] }
  let db2 := insert_items db1 ship_id form.items
  ⟨db2,
    [("Checklist criada com sucesso. Você pode anexar imagens aos itens na tela de Detalhes.",
      "success")],
    Resp.redirectDetail ship_id⟩

/-- Database effect of `upload_item_image`: when the upload passes the file
checks (abstracted as `ok`, the file handling itself being external), set
the item's image_path; otherwise no database change. -/
def upload_item_image (db : DB) (ship_id item_id : Nat) (ok : Bool)
    (rel_path : String) : DB :=
  if ok then
    { db with items := db.items.map (fun it =>
        if it.id = item_id ∧ it.ship_id = ship_id then
          { it with image_path := some rel_path }
        else it) }
  else db

/-- Database effect of `remove_item_image`: clear image_path when present. -/
def remove_item_image (db : DB) (ship_id item_id : Nat) : DB :=
  { db with items := db.items.map (fun it =>
      if it.id = item_id ∧ it.ship_id = ship_id ∧ truthy it.image_path then
        { it with image_path := none }
      else it) }

/-- One request against the service, as far as the database is concerned. -/
inductive Op where
  | postOpen (sess : Session) (token : String) (form : Form) (now : String)
      (ip ua : Option String)
  | getOpen (sess : Session) (token : String) (now : String) (ip ua : Option String)
  | unconfirmOp (sess : Session) (token : String) (item_id : Nat)
  | addItemOp (ship_id : Nat) (label : Option String)
  | newShipOp (form : NewForm) (token now : String)
  | uploadImageOp (ship_id item_id : Nat) (ok : Bool) (rel_path : String)
  | removeImageOp (ship_id item_id : Nat)
deriving Repr

/-- The database after serving one request. -/
def applyOp (db : DB) : Op → DB
  | .postOpen sess token form now ip ua => (open_public_post db sess token form now ip ua).db
  | .getOpen sess token now ip ua => (open_public_get db sess token now ip ua).db
  | .unconfirmOp sess token item_id => (unconfirm_item_route db sess token item_id).db
  | .addItemOp ship_id label => (add_item db ship_id label).db
  | .newShipOp form token now => (new_shipment db form token now).db
  | .uploadImageOp ship_id item_id ok rel_path => upload_item_image db ship_id item_id ok rel_path
  | .removeImageOp ship_id item_id => remove_item_image db ship_id item_id

/-- The types of the events a handler appended beyond a baseline log. -/
def new_event_types (base : List Event) (db' : DB) : List (Option String) :=
  (db'.events.drop base.length).map Event.etype

/-- Position-wise monotonicity of `received_at` across a step: a ship row
whose `received_at` is already set keeps exactly that value (and its id). -/
def received_monotone (db db' : DB) : Prop :=
  ∀ (i : Nat) (s : Ship) (t : String), db.ships[i]? = some s → s.received_at = some t →
    ∃ s', db'.ships[i]? = some s' ∧ s'.id = s.id ∧ s'.received_at = some t

/-- Whenever a step turns a ship's `received_at` from null to non-null, at
the end of that step every item of that shipment has a non-null
`confirmed_at`. -/
def received_set_justified (db db' : DB) : Prop :=
  ∀ (i : Nat) (s s' : Ship), db.ships[i]? = some s → db'.ships[i]? = some s' →
    s.received_at = none → s'.received_at ≠ none →
    ∀ it ∈ db'.items, it.ship_id = s'.id → it.confirmed_at ≠ none

/-! Concrete fixtures used by the witness theorems. -/

def shipNoResp : Ship := { id := 1, title := "Remessa A", token := "tokA" }

def shipResp : Ship :=
  { id := 2, title := "Remessa B", token := "tokB", responsible_email := some "r@x.com" }

def itemOne : Item := { id := 1, ship_id := 1, label := "bolt" }

def itemTwo : Item := { id := 2, ship_id := 2, label := "nut" }

def dbTwo : DB := { ships := [shipNoResp, shipResp], items := [itemOne, itemTwo] }

def sessMallory : Session :=
  { viewer_name := some "Mallory", viewer_email := some "m@x.com" }

def shipRec : Ship := { id := 1, title := "Done", token := "tokC", received_at := some "TR" }

def dbRec : DB := { ships := [shipRec] }

def shipOpen : Ship := { id := 1, title := "Open", token := "tokD" }

def itemOpen : Item := { id := 1, ship_id := 1, label := "x" }

def dbOpen : DB := { ships := [shipOpen], items := [itemOpen] }

def opConfirmAllOpen : Op :=
  Op.postOpen {} "tokD" { confirm_all := some "1" } "T9" none none

/-! ### Frame lemmas for the data-access functions -/

@[simp] lemma confirm_all_items_ships (db : DB) (sid : Nat) (w t : String) :
    (confirm_all_items db sid w t).ships = db.ships := rfl

@[simp] lemma confirm_all_items_events (db : DB) (sid : Nat) (w t : String) :
    (confirm_all_items db sid w t).events = db.events := rfl

@[simp] lemma confirm_selected_items_ships (db : DB) (sid : Nat) (ids : List Nat)
    (w t : String) : (confirm_selected_items db sid ids w t).ships = db.ships := by
  unfold confirm_selected_items; split <;> rfl

@[simp] lemma confirm_selected_items_events (db : DB) (sid : Nat) (ids : List Nat)
    (w t : String) : (confirm_selected_items db sid ids w t).events = db.events := by
  unfold confirm_selected_items; split <;> rfl

@[simp] lemma mark_items_viewed_ships (db : DB) (sid : Nat) (ids : List Nat)
    (w t : String) : (mark_items_viewed db sid ids w t).ships = db.ships := by
  unfold mark_items_viewed; split <;> rfl

@[simp] lemma mark_items_viewed_events (db : DB) (sid : Nat) (ids : List Nat)
    (w t : String) : (mark_items_viewed db sid ids w t).events = db.events := by
  unfold mark_items_viewed; split <;> rfl

@[simp] lemma set_ship_viewed_items (db : DB) (sid : Nat) (t : String) :
    (set_ship_viewed_if_first_time db sid t).items = db.items := rfl

@[simp] lemma set_ship_viewed_events (db : DB) (sid : Nat) (t : String) :
    (set_ship_viewed_if_first_time db sid t).events = db.events := rfl

@[simp] lemma set_ship_received_items (db : DB) (sid : Nat) (t : String) :
    (set_ship_received_if_done db sid t).items = db.items := by
  unfold set_ship_received_if_done; dsimp only; split <;> rfl

@[simp] lemma set_ship_received_events (db : DB) (sid : Nat) (t : String) :
    (set_ship_received_if_done db sid t).events = db.events := by
  unfold set_ship_received_if_done; dsimp only; split <;> rfl

@[simp] lemma add_event_ships (db : DB) (sid : Nat) (a e : String)
    (ip ua : Option String) (t : String) :
    (add_event db sid a e ip ua t).ships = db.ships := rfl

@[simp] lemma add_event_items (db : DB) (sid : Nat) (a e : String)
    (ip ua : Option String) (t : String) :
    (add_event db sid a e ip ua t).items = db.items := rfl

lemma add_event_events (db : DB) (sid : Nat) (a e : String)
    (ip ua : Option String) (t : String) :
    (add_event db sid a e ip ua t).events = db.events ++
      [{ id := nextEventId db, ship_id := sid, ts := t, actor := some a,
         etype := some e, ip := ip, user_agent := ua }] := rfl

/-- C4.  `confirm_all_items` is idempotent: a second run right after a first
run over the same shipment is the identity on the whole database — it
changes zero further item rows and leaves every `confirmed_at`/`confirmed_by`
set by the first run untouched (first confirmation wins). -/
theorem confirm_all_idempotent (db : DB) (sid : Nat) (w1 t1 w2 t2 : String) :
    confirm_all_items (confirm_all_items db sid w1 t1) sid w2 t2 =
      confirm_all_items db sid w1 t1 := by
  unfold confirm_all_items
  congr 1
  rw [List.map_map]
  apply List.map_congr_left
  intro it _
  by_cases h : it.ship_id = sid ∧ it.confirmed_at = none
  · simp only [Function.comp_apply, if_pos h]
    rw [if_neg (by simp)]
  · simp only [Function.comp_apply, if_neg h]

/-- C1 (code bug).  Spec: `markViewed` "sets `viewed_at`/`viewed_by` on items
in the given id set whose `viewed_at` is currently null", so repeated calls
are safe no-ops.  The source `mark_items_viewed` has no
`viewed_at IS NULL` condition (unlike both confirm updates), so a call whose
id set contains an already-viewed item overwrites that item's
`viewed_at`/`viewed_by`, as this evaluation at a concrete input shows. -/
theorem mark_items_viewed_overwrites_prior_view :
    (mark_items_viewed
        { ships := [{ id := 1, title := "S", token := "tokZ" }],
          items := [{ id := 1, ship_id := 1, label := "bolt",
                      viewed_at := some "2024-01-01T00:00:00",
                      viewed_by := some "alice" }],
          events := [] }
        1 [1] "bob" "2024-01-02T00:00:00").items =
      [{ id := 1, ship_id := 1, label := "bolt",
         viewed_at := some "2024-01-02T00:00:00", viewed_by := some "bob" }] := by
  rfl

/-- C7.  `confirm_selected_items` on shipment `sid` only affects items owned
by `sid`: the item list keeps its length, and every item row of any other
shipment is returned completely unchanged (in particular its `confirmed_at`
and `confirmed_by`), whatever ids — including foreign ones — appear in the
id set; foreign ids are silently excluded, never an error. -/
theorem confirm_selected_foreign_frame (db : DB) (sid : Nat) (ids : List Nat)
    (w t : String) :
    (confirm_selected_items db sid ids w t).items.length = db.items.length ∧
    ∀ (i : Nat) (it : Item), db.items[i]? = some it → it.ship_id ≠ sid →
      (confirm_selected_items db sid ids w t).items[i]? = some it := by
  unfold confirm_selected_items
  split
  · exact ⟨rfl, fun i it h _ => h⟩
  · refine ⟨by simp, fun i it h hne => ?_⟩
    show (db.items.map _)[i]? = some it
    rw [List.getElem?_map, h, Option.map_some']
    rw [if_neg (fun hc => hne hc.1)]

/-- Witness for C7 at a concrete input: confirming on shipment 1 with an id
set that names item 2 — which belongs to shipment 2 — leaves item 2's row
untouched. -/
theorem confirm_selected_foreign_frame_witness :
    (confirm_selected_items dbTwo 1 [2] "w" "T").items[1]? = some itemTwo :=
  (confirm_selected_foreign_frame dbTwo 1 [2] "w" "T").2 1 itemTwo rfl (by decide)

/-- C9.  The unconfirm route on an existing shipment mutates no item field
and no shipment field (and appends no event): the database comes back
unchanged; the only state effect is the per-viewer per-shipment
already-viewed session marker, which it sets, plus the rejection flash. -/
theorem unconfirm_route_no_mutation (db : DB) (sess : Session) (token : String)
    (item_id : Nat) (ship : Ship) (h : get_ship_by_token db token = some ship) :
    unconfirm_item_route db sess token item_id =
      ⟨db, { sess with viewed_flags := ship.id :: sess.viewed_flags },
        [("Desconfirmar não é permitido neste checklist.", "error")],
        Resp.redirectOpen token⟩ := by
  unfold unconfirm_item_route
  rw [h]

/-- Witness for C9 at a concrete input. -/
theorem unconfirm_route_no_mutation_witness :
    unconfirm_item_route dbTwo {} "tokA" 5 =
      ⟨dbTwo, { viewed_flags := [1] },
        [("Desconfirmar não é permitido neste checklist.", "error")],
        Resp.redirectOpen "tokA"⟩ :=
  unconfirm_route_no_mutation dbTwo {} "tokA" 5 shipNoResp rfl

/-- C10 (implicit).  `add_item` performs no shipment-existence check: for a
shipment id matching no existing shipment, a non-empty label is still
inserted as an item row referencing that id, the route reports success, and
the shipment still does not exist afterwards. -/
theorem add_item_no_existence_check (db : DB) (sid : Nat) (lbl : String)
    (hno : ∀ s ∈ db.ships, s.id ≠ sid) (hlbl : pystrip lbl ≠ "") :
    (add_item db sid (some lbl)).db.items =
      db.items ++ [{ id := nextItemId db, ship_id := sid, label := pystrip lbl }] ∧
    (add_item db sid (some lbl)).flashes =
      [("Item adicionado com sucesso.", "success")] ∧
    get_ship_by_id (add_item db sid (some lbl)).db sid = none := by
  unfold add_item
  simp only [Option.getD_some]
  rw [if_neg hlbl]
  refine ⟨rfl, rfl, ?_⟩
  unfold get_ship_by_id
  apply List.find?_eq_none.mpr
  intro s hs
  simp only [beq_iff_eq]
  exact hno s hs

/-- Witness for C10 at a concrete input: shipment 99 does not exist in
`dbTwo`, yet the insert succeeds and references it. -/
theorem add_item_no_existence_check_witness :
    (add_item dbTwo 99 (some " widget ")).db.items =
      dbTwo.items ++ [{ id := 3, ship_id := 99, label := "widget" }] ∧
    (add_item dbTwo 99 (some " widget ")).flashes =
      [("Item adicionado com sucesso.", "success")] ∧
    get_ship_by_id (add_item dbTwo 99 (some " widget ")).db 99 = none :=
  add_item_no_existence_check dbTwo 99 " widget " (by decide) (by decide)

/-- C5.  A viewer is an authorized editor exactly when `responsible_email`
is unset or the viewer's e-mail equals the stored (never-empty, normalized
lowercase) `responsible_email`; and a POST (confirm-all or
confirm-selected alike — the gate precedes the branch) by an identified but
non-authorized viewer changes nothing at all: same database (no item, no
shipment, no event), same session, just the error flash naming the
responsible identity and a redirect. -/
theorem authorization_gate (resp viewer : Option String) (db : DB) (sess : Session)
    (token : String) (form : Form) (now : String) (ip ua : Option String)
    (ship : Ship) :
    (resp ≠ some "" → (can_edit resp viewer = true ↔ (resp = none ∨ viewer = resp))) ∧
    (get_ship_by_token db token = some ship →
      truthy (current_user sess) = true →
      can_edit ship.responsible_email (current_user sess) = false →
      open_public_post db sess token form now ip ua =
        ⟨db, sess,
          [("Apenas o responsável (" ++ optStr ship.responsible_email ++
            ") pode confirmar.", "error")],
          Resp.redirectOpen token⟩) := by
  constructor
  · intro hne
    cases resp with
    | none => simp [can_edit, truthy]
    | some r =>
      have hr : r ≠ "" := fun he => hne (by rw [he])
      simp [can_edit, truthy, hr]
  · intro hship hvu hcan
    simp only [open_public_post, hship]
    rw [if_neg (fun hc => hc.2 hvu)]
    rw [if_neg (by simp [hcan])]

/-- Witness for C5 at concrete inputs: the responsible viewer is authorized,
an unrelated identified viewer is rejected with the flash naming
`r@x.com` and the database intact. -/
theorem authorization_gate_witness :
    can_edit (some "r@x.com") (some "r@x.com") = true ∧
    open_public_post dbTwo sessMallory "tokB" { confirm_all := some "1" } "T" none none =
      ⟨dbTwo, sessMallory,
        [("Apenas o responsável (r@x.com) pode confirmar.", "error")],
        Resp.redirectOpen "tokB"⟩ := by
  constructor
  · exact ((authorization_gate (some "r@x.com") (some "r@x.com") dbTwo {} "" {} ""
      none none shipResp).1 (by decide)).mpr (Or.inr rfl)
  · exact (authorization_gate (some "r@x.com") (some "r@x.com") dbTwo sessMallory
      "tokB" { confirm_all := some "1" } "T" none none shipResp).2 rfl (by decide) (by decide)

/-- C6.  Confirm-selected parses the submitted raw tokens tolerantly: the
non-numeric tokens are silently discarded (removing them beforehand leaves
the parsed id list unchanged — they never cause an error), and when the
parsed id set is empty the POST fails with the "Nenhum item selecionado."
validation flash, confirms no item and appends no event: the database is
returned unchanged. -/
theorem selected_parse_tolerant_empty_rejected (tokens : List String) (db : DB)
    (sess : Session) (token : String) (form : Form) (now : String)
    (ip ua : Option String) (ship : Ship) :
    parse_selected_ids tokens =
      parse_selected_ids (tokens.filter (fun x => pyisdigit x)) ∧
    (get_ship_by_token db token = some ship →
      ¬ (truthy ship.responsible_email ∧ ¬ truthy (current_user sess)) →
      can_edit ship.responsible_email (current_user sess) = true →
      form.confirm_all ≠ some "1" →
      parse_selected_ids form.items = [] →
      open_public_post db sess token form now ip ua =
        ⟨db, sess, [("Nenhum item selecionado.", "error")],
          Resp.redirectOpen token⟩) := by
  constructor
  · unfold parse_selected_ids
    rw [List.filter_filter]
    simp
  · intro hship hnred hcan hnall hempty
    simp only [open_public_post, hship]
    rw [if_neg hnred, if_pos hcan, if_neg hnall]
    rw [if_neg (fun h => h hempty)]

/-- Witness for C6 at concrete inputs: of `["1", "abc", "2"]` only the
numeric tokens survive the parse, and a selection containing only garbage
tokens is rejected with no state change. -/
theorem selected_parse_tolerant_empty_rejected_witness :
    parse_selected_ids ["1", "abc", "2"] =
      parse_selected_ids (["1", "abc", "2"].filter (fun x => pyisdigit x)) ∧
    open_public_post dbTwo {} "tokA" { items := ["abc", ""] } "T" none none =
      ⟨dbTwo, {}, [("Nenhum item selecionado.", "error")], Resp.redirectOpen "tokA"⟩ := by
  constructor
  · exact (selected_parse_tolerant_empty_rejected ["1", "abc", "2"] dbTwo {} "" {} ""
      none none shipNoResp).1
  · exact (selected_parse_tolerant_empty_rejected [] dbTwo {} "tokA"
      { items := ["abc", ""] } "T" none none shipNoResp).2 rfl (by decide) (by decide)
      (by decide) (by decide)

/-- Frame of the `new_shipment` item-insertion loop: it touches neither
ships nor events, and appends, in order, one item per label that is
non-empty after stripping, stripped and attached to the given ship id. -/
lemma insert_items_frame (labels : List String) (db : DB) (sid : Nat) :
    (insert_items db sid labels).ships = db.ships ∧
    (insert_items db sid labels).events = db.events ∧
    (insert_items db sid labels).items.map (fun it => (it.ship_id, it.label)) =
      db.items.map (fun it => (it.ship_id, it.label)) ++
        (labels.filter (fun l => pystrip l ≠ "")).map (fun l => (sid, pystrip l)) := by
  induction labels generalizing db with
  | nil => exact ⟨rfl, rfl, by simp [insert_items]⟩
  | cons hd tl ih =>
    unfold insert_items
    by_cases h : pystrip hd ≠ ""
    · rw [if_pos h]
      obtain ⟨h1, h2, h3⟩ := ih _
      refine ⟨h1, h2, ?_⟩
      rw [h3]
      simp [List.filter_cons, h]
    · rw [if_neg h]
      obtain ⟨h1, h2, h3⟩ := ih _
      refine ⟨h1, h2, ?_⟩
      rw [h3]
      simp [List.filter_cons, h]

/-- C8.  Shipment creation (`new_shipment`) appends exactly one ship row —
with status the creation label "ENVIADO" (the source's literal for the
spec's SENT status), `sent_at` set to the current time, fresh token and
null first-time stamps — and persists each provided initial item label
after stripping, attached to the new ship, silently dropping every label
that is empty after stripping; there is no failure path. -/
theorem new_shipment_creation (db : DB) (form : NewForm) (token now : String) :
    (new_shipment db form token now).db.ships =
      db.ships ++ [new_ship_row db form token now] ∧
    (new_ship_row db form token now).status = some "ENVIADO" ∧
    (new_ship_row db form token now).sent_at = some now ∧
    (new_ship_row db form token now).received_at = none ∧
    (new_ship_row db form token now).viewed_at = none ∧
    (new_ship_row db form token now).token = token ∧
    (new_shipment db form token now).db.items.map (fun it => (it.ship_id, it.label)) =
      db.items.map (fun it => (it.ship_id, it.label)) ++
        (form.items.filter (fun l => pystrip l ≠ "")).map
          (fun l => (nextShipId db, pystrip l)) ∧
    (new_shipment db form token now).flashes =
      [("Checklist criada com sucesso. Você pode anexar imagens aos itens na tela de Detalhes.",
        "success")] := by
  unfold new_shipment
  dsimp only
  refine ⟨?_, rfl, rfl, rfl, rfl, rfl, ?_, rfl⟩
  · exact (insert_items_frame form.items _ (nextShipId db)).1
  · exact (insert_items_frame form.items _ (nextShipId db)).2.2

/-- C2 counterexample: the add-item operation succeeds (success flash, item
row inserted) yet appends zero events, refuting "every successful mutating
operation appends exactly one Event" for the add-item case. -/
theorem add_item_success_appends_no_event :
    (add_item dbTwo 1 (some "washer")).flashes =
      [("Item adicionado com sucesso.", "success")] ∧
    (add_item dbTwo 1 (some "washer")).db.items.length = dbTwo.items.length + 1 ∧
    (add_item dbTwo 1 (some "washer")).db.events = [] :=
  ⟨rfl, rfl, rfl⟩

/-- C2 (amended).  Event-append discipline of the service: a successful
confirm-all POST appends exactly one CONFIRM_ALL event, a successful
confirm-selected POST exactly one CONFIRM_SELECTED event; the rejected
paths (authorization failure, unknown token, empty selection) leave the
database — events included — unchanged; a GET appends exactly one
AUTO_VIEWED_ITEMS event when the first-view auto-mark runs (followed by the
unconditional VIEW_OPEN event) and none otherwise; and add-item appends
zero events even when it succeeds. -/
theorem event_append_discipline (db : DB) (sess : Session) (token : String)
    (form : Form) (now : String) (ip ua : Option String) (ship : Ship)
    (sid : Nat) (lbl : Option String) :
    (get_ship_by_token db token = some ship →
      ¬ (truthy ship.responsible_email ∧ ¬ truthy (current_user sess)) →
      can_edit ship.responsible_email (current_user sess) = true →
      ((form.confirm_all = some "1" →
          (open_public_post db sess token form now ip ua).db.events.take
              db.events.length = db.events ∧
          new_event_types db.events (open_public_post db sess token form now ip ua).db =
            [some "CONFIRM_ALL"]) ∧
       (form.confirm_all ≠ some "1" → parse_selected_ids form.items ≠ [] →
          (open_public_post db sess token form now ip ua).db.events.take
              db.events.length = db.events ∧
          new_event_types db.events (open_public_post db sess token form now ip ua).db =
            [some "CONFIRM_SELECTED"]) ∧
       (form.confirm_all ≠ some "1" → parse_selected_ids form.items = [] →
          (open_public_post db sess token form now ip ua).db = db))) ∧
    (get_ship_by_token db token = some ship →
      can_edit ship.responsible_email (current_user sess) = false →
      (open_public_post db sess token form now ip ua).db = db) ∧
    (get_ship_by_token db token = none →
      (open_public_post db sess token form now ip ua).db = db) ∧
    (get_ship_by_token db token = some ship →
      ¬ (truthy ship.responsible_email ∧ ¬ truthy (current_user sess)) →
      ((ship.id ∉ sess.viewed_flags →
          ((list_items_for_ship db ship.id).filter
              (fun it => !(truthy it.viewed_at))).map Item.id ≠ [] →
          (open_public_get db sess token now ip ua).db.events.take
              db.events.length = db.events ∧
          new_event_types db.events (open_public_get db sess token now ip ua).db =
            [some "AUTO_VIEWED_ITEMS", some "VIEW_OPEN"]) ∧
       (ship.id ∈ sess.viewed_flags →
          (open_public_get db sess token now ip ua).db.events.take
              db.events.length = db.events ∧
          new_event_types db.events (open_public_get db sess token now ip ua).db =
            [some "VIEW_OPEN"]) ∧
       (ship.id ∉ sess.viewed_flags →
          ((list_items_for_ship db ship.id).filter
              (fun it => !(truthy it.viewed_at))).map Item.id = [] →
          (open_public_get db sess token now ip ua).db.events.take
              db.events.length = db.events ∧
          new_event_types db.events (open_public_get db sess token now ip ua).db =
            [some "VIEW_OPEN"]))) ∧
    (pystrip (lbl.getD "") ≠ "" →
      (add_item db sid lbl).flashes = [("Item adicionado com sucesso.", "success")] ∧
      (add_item db sid lbl).db.events = db.events) ∧
    (pystrip (lbl.getD "") = "" → (add_item db sid lbl).db = db) := by
  refine ⟨?_, ?_, ?_, ?_, ?_, ?_⟩
  · intro hship hnred hcan
    refine ⟨fun hca => ?_, fun hnca hne => ?_, fun hnca hemp => ?_⟩
    · simp only [open_public_post, hship]
      rw [if_neg hnred, if_pos hcan, if_pos hca]
      constructor
      · rw [set_ship_received_events, add_event_events, confirm_all_items_events]
        exact List.take_left ..
      · unfold new_event_types
        rw [set_ship_received_events, add_event_events, confirm_all_items_events,
          List.drop_left]
        rfl
    · simp only [open_public_post, hship]
      rw [if_neg hnred, if_pos hcan, if_neg hnca, if_pos hne]
      constructor
      · rw [set_ship_received_events, add_event_events, confirm_selected_items_events]
        exact List.take_left ..
      · unfold new_event_types
        rw [set_ship_received_events, add_event_events, confirm_selected_items_events,
          List.drop_left]
        rfl
    · simp only [open_public_post, hship]
      rw [if_neg hnred, if_pos hcan, if_neg hnca, if_neg (fun h => h hemp)]
  · intro hship hcan
    simp only [open_public_post, hship]
    by_cases hr : truthy ship.responsible_email ∧ ¬ truthy (current_user sess)
    · rw [if_pos hr]
    · rw [if_neg hr, if_neg (by simp [hcan])]
  · intro hship
    simp only [open_public_post, hship]
  · intro hship hnred
    refine ⟨fun hflag hne => ?_, fun hflag => ?_, fun hflag hemp => ?_⟩
    · simp only [open_public_get, hship]
      rw [if_neg hnred, if_neg hflag, if_pos hne]
      constructor
      · rw [add_event_events, set_ship_viewed_events, add_event_events,
          mark_items_viewed_events, List.append_assoc]
        exact List.take_left ..
      · unfold new_event_types
        rw [add_event_events, set_ship_viewed_events, add_event_events,
          mark_items_viewed_events, List.append_assoc, List.drop_left]
        rfl
    · simp only [open_public_get, hship]
      rw [if_neg hnred, if_pos hflag]
      constructor
      · rw [add_event_events]
        exact List.take_left ..
      · unfold new_event_types
        rw [add_event_events, List.drop_left]
        rfl
    · simp only [open_public_get, hship]
      rw [if_neg hnred, if_neg hflag, if_neg (fun h => h hemp)]
      constructor
      · rw [add_event_events]
        exact List.take_left ..
      · unfold new_event_types
        rw [add_event_events, List.drop_left]
        rfl
  · intro hlbl
    unfold add_item
    rw [if_neg hlbl]
    exact ⟨rfl, rfl⟩
  · intro hlbl
    unfold add_item
    rw [if_pos hlbl]

/-- Witness for C2 (amended) at concrete inputs: a successful anonymous
confirm-all on the open shipment appends exactly one CONFIRM_ALL event, and
a successful add-item appends none. -/
theorem event_append_discipline_witness :
    new_event_types dbOpen.events
        (open_public_post dbOpen {} "tokD" { confirm_all := some "1" } "T9" none none).db =
      [some "CONFIRM_ALL"] ∧
    (add_item dbOpen 1 (some "extra")).db.events = dbOpen.events := by
  constructor
  · exact (((event_append_discipline dbOpen {} "tokD" { confirm_all := some "1" }
      "T9" none none shipOpen 1 (some "extra")).1 rfl (by decide) (by decide)).1 rfl).2
  · exact ((event_append_discipline dbOpen {} "tokD" { confirm_all := some "1" }
      "T9" none none shipOpen 1 (some "extra")).2.2.2.2.1 (by decide)).2

/-- A step whose ship table is the old one mapped through an id- and
received-preserving row function satisfies both `received_at` properties. -/
lemma received_frame_of_map (db db' : DB) (f : Ship → Ship)
    (h : db'.ships = db.ships.map f)
    (hid : ∀ s, (f s).id = s.id) (hrec : ∀ s, (f s).received_at = s.received_at) :
    received_monotone db db' ∧ received_set_justified db db' := by
  constructor
  · intro i s t hs hr
    refine ⟨f s, ?_, hid s, by rw [hrec s, hr]⟩
    rw [h, List.getElem?_map, hs, Option.map_some']
  · intro i s s' hs hs' hn hnn
    rw [h, List.getElem?_map, hs, Option.map_some'] at hs'
    have he : s' = f s := (Option.some.inj hs').symm
    exact absurd (by rw [he, hrec s, hn]) hnn

/-- A step that leaves the ship table unchanged satisfies both `received_at`
properties. -/
lemma received_frame_of_eq (db db' : DB) (h : db'.ships = db.ships) :
    received_monotone db db' ∧ received_set_justified db db' := by
  apply received_frame_of_map db db' id
  · rw [h, List.map_id]
  · intro s; rfl
  · intro s; rfl

/-- A step that appends ship rows (touching none of the old ones) satisfies
both `received_at` properties. -/
lemma received_frame_of_append (db db' : DB) (tail : List Ship)
    (h : db'.ships = db.ships ++ tail) :
    received_monotone db db' ∧ received_set_justified db db' := by
  constructor
  · intro i s t hs hr
    have hlt : i < db.ships.length := (List.getElem?_eq_some.mp hs).1
    refine ⟨s, ?_, rfl, hr⟩
    rw [h, List.getElem?_append_left hlt, hs]
  · intro i s s' hs hs' hn hnn
    have hlt : i < db.ships.length := (List.getElem?_eq_some.mp hs).1
    rw [h, List.getElem?_append_left hlt, hs] at hs'
    have he : s' = s := (Option.some.inj hs').symm
    exact absurd (by rw [he, hn]) hnn

/-- A step that ends with `set_ship_received_if_done` on an
otherwise-ships-preserving intermediate database satisfies both
`received_at` properties: the coalesce keeps any value already set, and a
null-to-non-null flip can only happen when the zero-unconfirmed-items guard
held of the final item table. -/
lemma received_step_of_set_received (db d2 : DB) (sid : Nat) (now : String)
    (hs : d2.ships = db.ships) :
    received_monotone db (set_ship_received_if_done d2 sid now) ∧
    received_set_justified db (set_ship_received_if_done d2 sid now) := by
  unfold set_ship_received_if_done
  dsimp only
  split
  case isTrue hrem =>
    constructor
    · intro i s t hsi hr
      refine ⟨if s.id = sid then { s with received_at := some (s.received_at.getD now) }
              else s, ?_, ?_, ?_⟩
      · show (d2.ships.map _)[i]? = _
        rw [hs, List.getElem?_map, hsi, Option.map_some']
      · split <;> rfl
      · split
        · rw [hr]
          rfl
        · exact hr
    · intro i s s' hsi hsi' hn hnn it hit hship
      have hsi'' : (d2.ships.map (fun s =>
          if s.id = sid then { s with received_at := some (s.received_at.getD now) }
          else s))[i]? = some s' := hsi'
      rw [hs, List.getElem?_map, hsi, Option.map_some'] at hsi''
      have he : s' = if s.id = sid
          then { s with received_at := some (s.received_at.getD now) } else s :=
        (Option.some.inj hsi'').symm
      by_cases hid : s.id = sid
      · have hall := List.filter_eq_nil_iff.mp (List.length_eq_zero.mp hrem)
        intro hcn
        apply hall it hit
        have hsid : it.ship_id = sid := by
          rw [he, if_pos hid] at hship
          rw [hship]
          exact hid
        simp [hsid, hcn]
      · rw [he, if_neg hid] at hnn
        exact absurd hn hnn
  case isFalse hrem =>
    exact received_frame_of_eq db d2 hs

/-- Each request of the service preserves every set `received_at` and only
flips one from null to non-null when all of that shipment's items are
confirmed at the end of the request. -/
lemma received_step (db : DB) (op : Op) :
    received_monotone db (applyOp db op) ∧ received_set_justified db (applyOp db op) := by
  cases op with
  | postOpen sess token form now ip ua =>
    show received_monotone db (open_public_post db sess token form now ip ua).db ∧
      received_set_justified db (open_public_post db sess token form now ip ua).db
    cases hq : get_ship_by_token db token with
    | none =>
      simp only [open_public_post, hq]
      exact received_frame_of_eq db db rfl
    | some ship =>
      simp only [open_public_post, hq]
      by_cases h1 : truthy ship.responsible_email ∧ ¬ truthy (current_user sess)
      · rw [if_pos h1]
        exact received_frame_of_eq db _ rfl
      · rw [if_neg h1]
        by_cases h2 : can_edit ship.responsible_email (current_user sess) = true
        · rw [if_pos h2]
          by_cases h3 : form.confirm_all = some "1"
          · rw [if_pos h3]
            exact received_step_of_set_received db _ ship.id now rfl
          · rw [if_neg h3]
            by_cases h4 : parse_selected_ids form.items ≠ []
            · rw [if_pos h4]
              exact received_step_of_set_received db _ ship.id now
                (confirm_selected_items_ships db ship.id _ _ _)
            · rw [if_neg h4]
              exact received_frame_of_eq db _ rfl
        · rw [if_neg h2]
          exact received_frame_of_eq db _ rfl
  | getOpen sess token now ip ua =>
    show received_monotone db (open_public_get db sess token now ip ua).db ∧
      received_set_justified db (open_public_get db sess token now ip ua).db
    cases hq : get_ship_by_token db token with
    | none =>
      simp only [open_public_get, hq]
      exact received_frame_of_eq db db rfl
    | some ship =>
      simp only [open_public_get, hq]
      by_cases h1 : truthy ship.responsible_email ∧ ¬ truthy (current_user sess)
      · rw [if_pos h1]
        exact received_frame_of_eq db _ rfl
      · rw [if_neg h1]
        by_cases h2 : ship.id ∈ sess.viewed_flags
        · rw [if_pos h2]
          exact received_frame_of_eq db _ rfl
        · rw [if_neg h2]
          by_cases h3 : ((list_items_for_ship db ship.id).filter
              (fun it => !(truthy it.viewed_at))).map Item.id ≠ []
          · rw [if_pos h3]
            apply received_frame_of_map db _
              (fun s => if s.id = ship.id
                then { s with viewed_at := some (s.viewed_at.getD now) } else s)
            · show ((mark_items_viewed db ship.id _ _ now).ships).map _ = _
              rw [mark_items_viewed_ships]
            · intro s
              split <;> rfl
            · intro s
              split <;> rfl
          · rw [if_neg h3]
            exact received_frame_of_eq db _ rfl
  | unconfirmOp sess token item_id =>
    show received_monotone db (unconfirm_item_route db sess token item_id).db ∧
      received_set_justified db (unconfirm_item_route db sess token item_id).db
    cases hq : get_ship_by_token db token with
    | none =>
      simp only [unconfirm_item_route, hq]
      exact received_frame_of_eq db db rfl
    | some ship =>
      simp only [unconfirm_item_route, hq]
      exact received_frame_of_eq db _ rfl
  | addItemOp sid label =>
    show received_monotone db (add_item db sid label).db ∧
      received_set_justified db (add_item db sid label).db
    unfold add_item
    dsimp only
    split
    · exact received_frame_of_eq db _ rfl
    · exact received_frame_of_eq db _ rfl
  | newShipOp form token now =>
    show received_monotone db (new_shipment db form token now).db ∧
      received_set_justified db (new_shipment db form token now).db
    apply received_frame_of_append db _ [new_ship_row db form token now]
    show (insert_items _ (nextShipId db) form.items).ships = _
    rw [(insert_items_frame form.items _ (nextShipId db)).1]
  | uploadImageOp sid iid ok rel =>
    show received_monotone db (upload_item_image db sid iid ok rel) ∧
      received_set_justified db (upload_item_image db sid iid ok rel)
    unfold upload_item_image
    split
    · exact received_frame_of_eq db _ rfl
    · exact received_frame_of_eq db _ rfl
  | removeImageOp sid iid =>
    exact received_frame_of_eq db _ rfl

lemma received_monotone_rfl (db : DB) : received_monotone db db :=
  fun _ s _ hs hr => ⟨s, hs, rfl, hr⟩

lemma received_monotone_trans {a b c : DB}
    (h1 : received_monotone a b) (h2 : received_monotone b c) :
    received_monotone a c := by
  intro i s t hs hr
  obtain ⟨s1, hb, hid1, hr1⟩ := h1 i s t hs hr
  obtain ⟨s2, hc, hid2, hr2⟩ := h2 i s1 t hb hr1
  exact ⟨s2, hc, hid2.trans hid1, hr2⟩

lemma received_monotone_foldl (ops : List Op) (db : DB) :
    received_monotone db (ops.foldl applyOp db) := by
  induction ops generalizing db with
  | nil => exact received_monotone_rfl db
  | cons op rest ih =>
    rw [List.foldl_cons]
    exact received_monotone_trans (received_step db op).1 (ih _)

/-- C3.  Whenever a request turns a shipment's `received_at` from null to
non-null, every item of that shipment has a non-null `confirmed_at` at the
moment of the flip (the end of that request, which is when the guard was
(re-)checked and nothing touched the items afterwards); and across any
sequence of requests — including ones that later add unconfirmed items — a
`received_at` once set keeps exactly its first value. -/
theorem received_at_justified_and_monotone (db : DB) (op : Op) (ops : List Op) :
    received_set_justified db (applyOp db op) ∧
    received_monotone db (ops.foldl applyOp db) :=
  ⟨(received_step db op).2, received_monotone_foldl ops db⟩

/-- Witness for C3 at concrete inputs: adding a fresh (unconfirmed) item to
an already-received shipment leaves its `received_at` at the original
value, and the confirm-all request that flips `received_at` leaves every
item of the shipment confirmed. -/
theorem received_at_justified_and_monotone_witness :
    (∃ s', ([Op.addItemOp 1 (some "late extra")].foldl applyOp dbRec).ships[0]? = some s' ∧
      s'.id = 1 ∧ s'.received_at = some "TR") ∧
    (∀ it ∈ (applyOp dbOpen opConfirmAllOpen).items,
      it.ship_id = 1 → it.confirmed_at ≠ none) := by
  constructor
  · exact (received_at_justified_and_monotone dbRec (Op.addItemOp 1 (some "late extra"))
      [Op.addItemOp 1 (some "late extra")]).2 0 shipRec "TR" rfl rfl
  · intro it hit hship
    exact (received_at_justified_and_monotone dbOpen opConfirmAllOpen []).1 0 shipOpen
      { id := 1, title := "Open", token := "tokD", received_at := some "T9" }
      rfl rfl rfl (by decide) it hit hship

end Biocamp
